import Mathlib

/-!
Shallow embedding of the Dell CSM replication-group controller
(`controllers/replication-controller/dellcsireplicationgroup_controller.go`).

The reconcile pass, its deletion branch, the last-action processor and the
snapshot materializer are modelled as pure functions from an explicit
environment (the remote-cluster client and local object store responses) and
the local resource to a trace of issued side effects plus the returned
`(ctrl.Result, error)` pair.  Remote/local API responses are supplied by the
environment; every issued call is recorded as an `Effect` in program order.
-/

namespace CsmRep

/-! ### String helpers mirroring the Go `strings` package operations used -/

/-- Go `strings.HasPrefix s pre`. -/
def strStarts (s pre : String) : Bool :=
  pre.data.isPrefixOf s.data

/-- Substring search on character lists; Go `strings.Contains` semantics. -/
def listContainsSub : List Char → List Char → Bool
  | _, [] => true
  | [], _ :: _ => false
  | a :: as, b :: bs => (b :: bs).isPrefixOf (a :: as) || listContainsSub as (b :: bs)

/-- Go `strings.Contains s sub`. -/
def strContains (s sub : String) : Bool :=
  listContainsSub s.data sub.data

/-- Go `strings.TrimPrefix s pre`. -/
def strTrimPref (s pre : String) : String :=
  if pre.data.isPrefixOf s.data then ⟨s.data.drop pre.data.length⟩ else s

/-- Go `strings.ToLower` (ASCII case folding suffices for the values used). -/
def strLower (s : String) : String :=
  ⟨s.data.map Char.toLower⟩

/-- First component of Go `strings.Split s "."`: the prefix before the first dot
(or the whole string when no dot occurs). -/
def strUpToDot (s : String) : String :=
  ⟨s.data.takeWhile (fun c => c != '.')⟩

/-! ### Association lists standing for Go `map[string]string` -/

/-- Go string maps, modelled as association lists (iteration order is the list
order; Go map iteration order is unspecified, so one order is fixed here). -/
abbrev AList := List (String × String)

/-- Keyed lookup; `none` stands for the key being absent. -/
def lookupA : AList → String → Option String
  | [], _ => none
  | (k, v) :: r, key => if k == key then some v else lookupA r key

/-- Go map indexing `m[k]`: the zero value `""` when the key is absent. -/
def getA (m : AList) (k : String) : String :=
  (lookupA m k).getD ""

/-- Go `_, ok := m[k]` presence test. -/
def hasA (m : AList) (k : String) : Bool :=
  (lookupA m k).isSome

/-- Go map assignment `m[k] = v` (replaces the first binding or appends). -/
def setA : AList → String → String → AList
  | [], k, v => [(k, v)]
  | (k0, v0) :: r, k, v => if k0 == k then (k, v) :: r else (k0, v0) :: setA r k v

/-! ### Constants

The constants below come from the `controllers` and `csi-replicator` packages
of this repository, which are not part of the reviewed source file set; they
are modelled from the spec (annotation keys are a de-facto protocol, §3/§6 of
the spec).  Only their identity as distinct keys and the literal values
`"self"`, `"replicated"`, `"retain"`, `"delete"`, `"yes"` matter to the code
under verification. -/

/-- Modelled from the spec: annotation key `RemoteReplicationGroup` (the
cross-cluster foreign key), from the `controllers` package (not in src). -/
def RemoteReplicationGroup : String := "remoteReplicationGroupName"

/-- Modelled from the spec: annotation key `RGSyncComplete`, from the
`controllers` package (not in src). -/
def RGSyncComplete : String := "rgSyncComplete"

/-- Modelled from the spec: annotation key `RemoteRGRetentionPolicy`, from the
`controllers` package (not in src). -/
def RemoteRGRetentionPolicy : String := "remoteRGRetentionPolicy"

/-- Modelled from the spec: annotation key `DeletionRequested`, from the
`controllers` package (not in src). -/
def DeletionRequested : String := "deletionRequested"

/-- Modelled from the spec: annotation key `ActionProcessedTime`, from the
`controllers` package (not in src). -/
def ActionProcessedTime : String := "actionProcessedTime"

/-- Modelled from the spec: annotation key `RemoteClusterID`, from the
`controllers` package (not in src). -/
def RemoteClusterID : String := "remoteClusterID"

/-- Modelled from the spec: annotation key `ContextPrefix`, from the
`controllers` package (not in src). -/
def ContextPrefix : String := "contextPrefix"

/-- Modelled from the spec: label key `DriverName`, from the `controllers`
package (not in src). -/
def DriverName : String := "driverName"

/-- Modelled from the spec: annotation key `SnapshotClass`, from the
`controllers` package (not in src). -/
def SnapshotClass : String := "snapshotClass"

/-- Modelled from the spec: label key `ReplicationGroup` used to select the
volume claims of a group, from the `controllers` package (not in src). -/
def ReplicationGroupLabel : String := "replicationGroupName"

/-- Modelled from the spec: storage-class parameter key flagging replication,
from the `controllers` package (not in src). -/
def StorageClassReplicationParam : String := "replicationEnabled"

/-- Modelled from the spec: the sentinel remote-cluster identifier `"self"`
(`controller.Self`, not in src). -/
def Self : String := "self"

/-- Modelled from the spec: the `replicated` name-prefix constant used for
self-mirroring (`replicated`, defined elsewhere in the package, not in src). -/
def replicated : String := "replicated"

/-- Modelled from the spec: the finalizer token `RGFinalizer`, from the
`controllers` package (not in src). -/
def RGFinalizer : String := "rgFinalizer"

/-- Modelled from the spec: retention-policy value `retain`
(`controller.RemoteRetentionValueRetain`, not in src). -/
def RemoteRetentionValueRetain : String := "retain"

/-- Modelled from the spec: retention-policy value `delete`
(`controller.RemoteRetentionValueDelete`, not in src). -/
def RemoteRetentionValueDelete : String := "delete"

/-- Modelled from the spec: annotation key under which the action payload is
stored (`csireplicator.Action`, not in src). -/
def ActionKey : String := "actionPayload"

/-- The string literal `"yes"` used for annotation values. -/
def yesVal : String := "yes"

/-- The keyword searched for in `LastAction.Condition` (source line 344). -/
def createSnapshotKw : String := "CREATE_SNAPSHOT"

/-- The literal prefix `"replicated-"` trimmed at source line 303. -/
def replicatedDash : String := "replicated-"

/-- The literal prefix `"cloned-"` prepended at source line 432. -/
def clonedDash : String := "cloned-"

/-- The repeated-prefix anomaly marker checked at source line 246. -/
def doubleReplicated : String := "replicated-replicated"

/-! ### Data model -/

/-- Spec of a `DellCSIReplicationGroup` (api/v1, fields used by the source). -/
structure RGSpecM where
  driverName : String
  action : String
  remoteClusterID : String
  protectionGroupID : String
  protectionGroupAttributes : AList
  remoteProtectionGroupID : String
  remoteProtectionGroupAttributes : AList
  deriving DecidableEq

/-- The `LastAction` status record.  `metav1.Time` is modelled by its rendered
string (`Time.String()` is the only operation applied); `none` is a nil
pointer. -/
structure LastActionM where
  condition : String
  actionAttributes : AList
  errorMessage : String
  time : Option String
  deriving DecidableEq

/-- Status of a replication group; conditions are opaque (only their count is
inspected by the source). -/
structure RGStatusM where
  conditions : List String
  lastAction : LastActionM
  deriving DecidableEq

/-- A `DellCSIReplicationGroup` object.  `annots = none` models a nil
annotations map (distinguished from an empty one at source line 86); the
deletion timestamp is modelled by whether it is non-zero. -/
structure RG where
  name : String
  annots : Option AList
  labels : AList
  spec : RGSpecM
  deletionTimestampSet : Bool
  finalizers : List String
  status : RGStatusM
  deriving DecidableEq

/-- A `v1.ObjectReference` (fields set by `makeSnapReference`). -/
structure ObjectRefM where
  kind : String
  apiVersion : String
  name : String
  namespaceName : String
  deriving DecidableEq

/-- A `VolumeSnapshotClass` (fields used by the source). -/
structure VolumeSnapshotClassM where
  name : String
  driver : String
  deletionPolicy : String
  deriving DecidableEq

/-- A `VolumeSnapshotContent` (fields set by `makeVolSnapContent`). -/
structure VolumeSnapshotContentM where
  name : String
  volumeSnapshotRef : ObjectRefM
  snapshotHandle : String
  volumeSnapshotClassName : String
  deletionPolicy : String
  driver : String
  deriving DecidableEq

/-- A `VolumeSnapshot` object (fields set by `makeSnapshotObject`). -/
structure VolumeSnapshotM where
  name : String
  namespaceName : String
  volumeSnapshotContentName : String
  volumeSnapshotClassName : String
  deriving DecidableEq

/-- A claim spec (fields read/copied by the source). -/
structure PVCSpecM where
  volumeName : String
  accessModes : List String
  resources : String
  storageClassName : Option String
  dataSourceKind : Option String
  dataSourceName : Option String
  deriving DecidableEq

/-- A `PersistentVolumeClaim`. -/
structure PVCM where
  name : String
  namespaceName : String
  spec : PVCSpecM
  deriving DecidableEq

/-- A `PersistentVolume` (only the CSI volume handle is read). -/
structure PVM where
  name : String
  csiVolumeHandle : String
  deriving DecidableEq

/-- A `StorageClass` (only the parameters map is read). -/
structure StorageClassM where
  name : String
  parameters : AList
  deriving DecidableEq

/-- The decoded action payload (`csireplicator.ActionAnnotation`); only the
snapshot namespace field is read by the reviewed source. Modelled from the
spec (the defining `csi-replicator` package is not in src). -/
structure ActionAnnM where
  snapshotNamespace : String
  deriving DecidableEq

/-! ### Effects and results -/

/-- A side effect issued by the pass, recorded in program order.  Each
constructor corresponds to one remote-client or local-store call that mutates
state, or an emitted event. -/
inductive Effect
  | updateLocal (rg : RG)
  | deleteLocal (rg : RG)
  | createRemoteRG (rg : RG)
  | updateRemoteRG (rg : RG)
  | eventRecord (etype : String) (reason : String) (note : String)
  | createNamespace (n : String)
  | createSnapshotClass (c : VolumeSnapshotClassM)
  | createSnapshotContent (c : VolumeSnapshotContentM)
  | createSnapshotObject (s : VolumeSnapshotM)
  | createPVC (p : PVCM)
  deriving DecidableEq

/-- The `(ctrl.Result, error)` pair returned by `Reconcile`. -/
structure RResultM where
  requeue : Bool
  requeueAfterMs : Nat
  isErr : Bool
  deriving DecidableEq

/-- Successful result with no requeue. -/
def okResult : RResultM := { requeue := false, requeueAfterMs := 0, isErr := false }

/-- Plain error result (`ctrl.Result{}, err`). -/
def errResult : RResultM := { requeue := false, requeueAfterMs := 0, isErr := true }

/-- Outcome of a remote `Get`: found, a not-found error, or any other error
(`errors.IsNotFound` distinguishes the latter two). -/
inductive Lk (α : Type)
  | found (a : α)
  | notFound
  | errOther
  deriving DecidableEq

/-- Whether a lookup succeeded. -/
def Lk.isFound {α : Type} : Lk α → Bool
  | Lk.found _ => true
  | _ => false

/-- The environment: the reconciler's configuration plus the responses of the
remote-cluster client and local object store for each possible call.  Remote
creates/updates report success or failure per argument; `nowUnix` is the value
of `time.Now().Unix()` during the pass. -/
structure Env where
  clusterID : String
  domain : String
  connOK : Bool
  getRemoteRG : String → Lk RG
  updateRemoteOK : Bool
  updateLocalOK : Bool
  deleteLocalOK : Bool
  createRemoteOK : Bool
  getNamespaceOK : String → Bool
  createNamespaceOK : String → Bool
  getSnapshotClass : String → Lk VolumeSnapshotClassM
  createSnapshotClassOK : Bool
  createContentOK : Bool
  createObjectOK : Bool
  createPVCOK : Bool
  getStorageClass : String → Lk StorageClassM
  listPVCs : String → Lk (List PVCM)
  getPV : String → Lk PVM
  parseActionAnn : String → Option ActionAnnM
  nowUnix : Nat

/-! ### Object-construction helpers (source lines 505-593) -/

/-- Source `makeSnapReference` (lines 513-520). -/
def makeSnapReference (snapName ns : String) : ObjectRefM :=
  { kind := "VolumeSnapshot",
    apiVersion := "snapshot.storage.k8s.io/v1",
    name := "snapshot-" ++ snapName,
    namespaceName := ns }

/-- Source `makeSnapshotObject` (lines 522-536). -/
def makeSnapshotObject (snapName contentName className ns : String) : VolumeSnapshotM :=
  { name := snapName,
    namespaceName := ns,
    volumeSnapshotContentName := contentName,
    volumeSnapshotClassName := className }

/-- Source `makeSnapshotClassRef` (lines 538-546). -/
def makeSnapshotClassRef (driver snapClass : String) : VolumeSnapshotClassM :=
  { name := snapClass, driver := driver, deletionPolicy := "Delete" }

/-- Source `makeVolSnapContent` (lines 548-564); `nowUnix` is
`time.Now().Unix()` rendered by `strconv.FormatInt`. -/
def makeVolSnapContent (snapName volumeName : String) (snapRef : ObjectRefM)
    (sc : VolumeSnapshotClassM) (nowUnix : Nat) : VolumeSnapshotContentM :=
  { name := "volume-" ++ volumeName ++ "-" ++ toString nowUnix,
    volumeSnapshotRef := snapRef,
    snapshotHandle := snapName,
    volumeSnapshotClassName := sc.name,
    deletionPolicy := sc.deletionPolicy,
    driver := sc.driver }

/-- Source `makePersistentVolumeClaimFromSnapshot` (lines 566-583). -/
def makePersistentVolumeClaimFromSnapshot (name ns snName storageClass : String)
    (pvcSpec : PVCSpecM) : PVCM :=
  { name := name,
    namespaceName := ns,
    spec := { volumeName := "",
              accessModes := pvcSpec.accessModes,
              resources := pvcSpec.resources,
              storageClassName := some storageClass,
              dataSourceKind := some "VolumeSnapshot",
              dataSourceName := some snName } }

/-! ### Metadata helpers from the `controllers` package -/

/-- Modelled from the spec: `controller.AddAnnotation` (not in src) sets an
annotation key on the object, initializing the map when nil. -/
def addAnnRG (rg : RG) (k v : String) : RG :=
  { rg with annots := some (setA (rg.annots.getD []) k v) }

/-- Modelled from the spec: `controller.AddFinalizerIfNotExist` (not in src);
returns whether the finalizer was added, plus the updated object. -/
def addFinalizerIfNotExist (rg : RG) (f : String) : Bool × RG :=
  if rg.finalizers.contains f then (false, rg)
  else (true, { rg with finalizers := rg.finalizers ++ [f] })

/-- Modelled from the spec: `controller.RemoveFinalizerIfExists` (not in src);
returns whether the finalizer was removed, plus the updated object. -/
def removeFinalizerIfExists (rg : RG) (f : String) : Bool × RG :=
  if rg.finalizers.contains f then
    (true, { rg with finalizers := rg.finalizers.filter (fun x => x != f) })
  else (false, rg)

/-! ### getPVCInformation (source lines 479-503) -/

/-- Inner loop of `getPVCInformation`: scan the listed claims, fetch each
backing volume, match on the CSI volume handle.  `none` is an error return;
`some r` is a successful return of `r`. -/
def findPVCByHandle (env : Env) (vh : String) : List PVCM → Option (Option PVCM)
  | [] => some none
  | pvc :: rest =>
    match env.getPV pvc.spec.volumeName with
    | Lk.found pv =>
      if pv.csiVolumeHandle == vh then some (some pvc) else findPVCByHandle env vh rest
    | _ => none

/-- Source `getPVCInformation`: list the group's claims by label and scan for
the one whose volume carries the given handle. -/
def getPVCInfo (env : Env) (rg : RG) (vh : String) : Option (Option PVCM) :=
  match env.listPVCs rg.name with
  | Lk.found l => findPVCByHandle env vh l
  | _ => none

/-! ### Snapshot materializer (source lines 357-477) -/

/-- The derived default snapshot-class name (source lines 388-390):
`"default-" + TrimPrefix(Split(driverClass, ".")[0], "csi-") + "-snapshotclass"`. -/
def defaultSnapClassName (driverClass : String) : String :=
  "default-" ++ strTrimPref (strUpToDot driverClass) "csi-" ++ "-snapshotclass"

/-- The per-pair loop of `processSnapshotEvent` (source lines 419-474).  The
`ns` argument is the mutable `namespace` variable threaded through the loop;
the Boolean result is whether an error was returned (aborting later pairs). -/
def snapPairLoop (env : Env) (rg : RG) (sc : VolumeSnapshotClassM)
    (shouldCreatePvc : Bool) (storageClass : String) :
    List (String × String) → String → List Effect × Bool
  | [], _ => ([], false)
  | (vh, sh) :: rest, ns =>
    let pvcOpt : Option PVCM :=
      if shouldCreatePvc then Option.join (getPVCInfo env rg vh) else none
    let collide : Bool :=
      match pvcOpt with
      | some p => p.namespaceName == ns
      | none => false
    let ns1 := if collide then clonedDash ++ ns else ns
    let redirectEffs : List Effect := if collide then [Effect.createNamespace ns1] else []
    if collide && !(env.createNamespaceOK ns1) then (redirectEffs, true)
    else
      let snapRef := makeSnapReference sh ns1
      let snapContent := makeVolSnapContent sh vh snapRef sc env.nowUnix
      let effs1 := redirectEffs ++ [Effect.createSnapshotContent snapContent]
      if !env.createContentOK then (effs1, true)
      else
        let snapObj := makeSnapshotObject snapRef.name snapContent.name sc.name ns1
        let effs2 := effs1 ++ [Effect.createSnapshotObject snapObj]
        if !env.createObjectOK then (effs2, true)
        else
          match pvcOpt with
          | none =>
            let r := snapPairLoop env rg sc shouldCreatePvc storageClass rest ns1
            (effs2 ++ r.1, r.2)
          | some p =>
            if shouldCreatePvc then
              let skipPvc : Bool :=
                match env.getStorageClass storageClass with
                | Lk.found stc => lookupA stc.parameters StorageClassReplicationParam == some "true"
                | _ => false
              if skipPvc then
                let r := snapPairLoop env rg sc shouldCreatePvc storageClass rest ns1
                (effs2 ++ r.1, r.2)
              else
                let newPVC := makePersistentVolumeClaimFromSnapshot p.name ns1
                  snapContent.volumeSnapshotRef.name storageClass p.spec
                let effs3 := effs2 ++ [Effect.createPVC newPVC]
                if !env.createPVCOK then (effs3, true)
                else
                  let r := snapPairLoop env rg sc shouldCreatePvc storageClass rest ns1
                  (effs3 ++ r.1, r.2)
            else
              let r := snapPairLoop env rg sc shouldCreatePvc storageClass rest ns1
              (effs2 ++ r.1, r.2)

/-- Source `processSnapshotEvent` (lines 357-477): decode the action payload,
ensure namespace and snapshot class, then run the per-pair loop. -/
def processSnapshotEvent (env : Env) (rg : RG) : List Effect × Bool :=
  let ann := rg.annots.getD []
  match lookupA ann ActionKey with
  | none => ([], false)
  | some payload =>
    match env.parseActionAnn payload with
    | none => ([], true)
    | some aa =>
      let ns := aa.snapshotNamespace
      let nsEffs : List Effect :=
        if env.getNamespaceOK ns then [] else [Effect.createNamespace ns]
      if !(env.getNamespaceOK ns) && !(env.createNamespaceOK ns) then (nsEffs, true)
      else
        let snCls0 := getA ann SnapshotClass
        let driverClass := getA rg.labels DriverName
        let snCls := if snCls0 == "" then defaultSnapClassName driverClass else snCls0
        if snCls0 != "" && !((env.getSnapshotClass snCls0).isFound) then (nsEffs, true)
        else
          let storageClass := getA ann (env.domain ++ "/snapshotStorageClass")
          let createPVCFlag := getA ann (env.domain ++ "/snapshotCreatePVC")
          let shouldCreatePvc := createPVCFlag == "true" && storageClass != ""
          let pairs := rg.status.lastAction.actionAttributes
          match env.getSnapshotClass snCls with
          | Lk.found sc =>
            let r := snapPairLoop env rg sc shouldCreatePvc storageClass pairs ns
            (nsEffs ++ r.1, r.2)
          | Lk.errOther => (nsEffs, true)
          | Lk.notFound =>
            let sc := makeSnapshotClassRef driverClass snCls
            if !env.createSnapshotClassOK then
              (nsEffs ++ [Effect.createSnapshotClass sc], true)
            else
              let r := snapPairLoop env rg sc shouldCreatePvc storageClass pairs ns
              (nsEffs ++ [Effect.createSnapshotClass sc] ++ r.1, r.2)

/-! ### Last-action processor (source lines 321-355) -/

/-- Source `processLastActionResult`: gate on conditions/timestamp/error, then
the `ActionProcessedTime` idempotency guard, then dispatch and the
unconditional stamp (whose own update error is ignored, line 352). -/
def processLastActionResult (env : Env) (rg : RG) : List Effect × Bool :=
  if rg.status.conditions.isEmpty || rg.status.lastAction.time.isNone then ([], false)
  else if rg.status.lastAction.errorMessage != "" then ([], true)
  else
    match lookupA (rg.annots.getD []) ActionProcessedTime with
    | none => ([], false)
    | some v =>
      let t := rg.status.lastAction.time.getD ""
      if v == t then ([], false)
      else
        let r :=
          if strContains rg.status.lastAction.condition createSnapshotKw then
            processSnapshotEvent env rg
          else ([], false)
        let rg2 := addAnnRG rg ActionProcessedTime t
        (r.1 ++ [Effect.updateLocal rg2], r.2)

/-! ### Reconcile (source lines 69-319) -/

/-- The remote-mirror name as computed by source lines 79-105: the
`RemoteReplicationGroup` annotation override (defaulting to the local name),
re-read verbatim when `RGSyncComplete` is `yes` (line 91), then forced to the
`replicated-<name>` form for the self cluster unless the local name already
starts with `replicated` (lines 99-105). -/
def initRemoteName (localName : String) (ann : AList) (remoteClusterID : String) : String :=
  let r0 := getA ann RemoteReplicationGroup
  let r1 := if r0 == "" then localName else r0
  let r2 := if getA ann RGSyncComplete == yesVal then getA ann RemoteReplicationGroup else r1
  if remoteClusterID == Self && !(strStarts localName replicated) then
    replicated ++ "-" ++ localName
  else r2

/-- The local cluster identity used for provenance (source lines 96-100):
the configured cluster id, replaced by the sentinel for self-mirroring. -/
def effClusterID (env : Env) (remoteClusterID : String) : String :=
  if remoteClusterID == Self then Self else env.clusterID

/-- The candidate remote mirror object (source lines 107-144): carried-over
annotations, projected labels, and the swapped protection-group view. -/
def buildRemoteRG (env : Env) (rg : RG) (ann : AList) (remoteName localCID : String) : RG :=
  let baseAnn : AList :=
    [(RemoteReplicationGroup, rg.name),
     (RemoteRGRetentionPolicy, getA ann RemoteRGRetentionPolicy),
     (RemoteClusterID, localCID)]
  let baseLabels : AList :=
    [(DriverName, getA rg.labels DriverName), (RemoteClusterID, localCID)]
  let ctxPref := getA ann ContextPrefix
  let extraLabels : AList :=
    if ctxPref != "" then
      (rg.spec.remoteProtectionGroupAttributes.filter (fun p => strStarts p.1 ctxPref)).map
        (fun p => (env.domain ++ strTrimPref p.1 ctxPref, p.2))
    else []
  { name := remoteName,
    annots := some baseAnn,
    labels := baseLabels ++ extraLabels,
    spec := { driverName := rg.spec.driverName,
              action := "",
              remoteClusterID := localCID,
              protectionGroupID := rg.spec.remoteProtectionGroupID,
              protectionGroupAttributes := rg.spec.remoteProtectionGroupAttributes,
              remoteProtectionGroupID := rg.spec.protectionGroupID,
              remoteProtectionGroupAttributes := rg.spec.protectionGroupAttributes },
    deletionTimestampSet := false,
    finalizers := [],
    status := { conditions := [],
                lastAction := { condition := "", actionAttributes := [],
                                errorMessage := "", time := none } } }

/-- The retention policy value (source lines 153-158): the annotation value
when present, else the explicit `retain` default. -/
def retentionValue (ann : AList) : String :=
  match lookupA ann RemoteRGRetentionPolicy with
  | some v => v
  | none => RemoteRetentionValueRetain

/-- The retention decision (source line 180): case-insensitive comparison of
the policy value against `delete`. -/
def retentionIsDelete (ann : AList) : Bool :=
  strLower (retentionValue ann) == RemoteRetentionValueDelete

/-- The deletion-handshake part of the deletion branch (source lines 168-197).
Runs only when the local resource does not itself carry `DeletionRequested`;
`none` means fall through to finalizer removal. -/
def deletionInner (env : Env) (ann : AList) : Option (List Effect × RResultM) :=
  if hasA ann DeletionRequested then none
  else
    match env.getRemoteRG (getA ann RemoteReplicationGroup) with
    | Lk.errOther => some ([], errResult)
    | Lk.notFound => none
    | Lk.found m =>
      if retentionIsDelete ann then
        if !(hasA (m.annots.getD []) DeletionRequested) then
          let m2 := addAnnRG m DeletionRequested yesVal
          if env.updateRemoteOK then
            some ([Effect.updateRemoteRG m2],
                  { requeue := false, requeueAfterMs := 1, isErr := false })
          else some ([Effect.updateRemoteRG m2], errResult)
        else some ([], { requeue := true, requeueAfterMs := 0, isErr := false })
      else none

/-- The deletion branch (source lines 161-205): handshake, then finalizer
removal; `none` means the branch did not return and the pass continues with
the active flow (which happens when the finalizer is already absent). -/
def deletionBranch (env : Env) (rg : RG) (ann : AList) : Option (List Effect × RResultM) :=
  if !rg.deletionTimestampSet then none
  else
    match deletionInner env ann with
    | some r => some r
    | none =>
      match removeFinalizerIfExists rg RGFinalizer with
      | (true, rg2) =>
        some ([Effect.updateLocal rg2], if env.updateLocalOK then okResult else errResult)
      | (false, _) => none

/-- The tail of the pass (source lines 287-318): optional mirror creation with
its events, then either the local `RemoteReplicationGroup`/`RGSyncComplete`
annotation update (when sync was not complete) or last-action processing. -/
def finishPass (env : Env) (rg : RG) (localName : String) (remoteRG : RG)
    (createFlag : Bool) (syncDone : Bool) (remoteName : String) : List Effect × RResultM :=
  if createFlag && !env.createRemoteOK then
    ([Effect.createRemoteRG remoteRG,
      Effect.eventRecord "Warning" "Updated" "Failed to create remote CR for DellCSIReplicationGroup"],
     errResult)
  else
    let effs1 : List Effect :=
      if createFlag then
        [Effect.createRemoteRG remoteRG,
         Effect.eventRecord "Normal" "Updated"
           ("Created remote ReplicationGroup with name: " ++ remoteName)]
      else []
    if !syncDone then
      let finalName :=
        if strContains localName replicated then strTrimPref localName replicatedDash
        else remoteName
      let rg2 := addAnnRG (addAnnRG rg RemoteReplicationGroup finalName) RGSyncComplete yesVal
      (effs1 ++ [Effect.updateLocal rg2], if env.updateLocalOK then okResult else errResult)
    else
      let r := processLastActionResult env rg
      (effs1 ++ r.1 ++
         (if r.2 then
            [Effect.eventRecord "Warning" "Updated" "failed to process the last action"]
          else []),
       okResult)

/-- Source `Reconcile` (lines 69-319), given the already-fetched local
resource: initialization gate, name/identity computation, connection check,
deletion branch, finalizer addition, resumed-deletion check, remote-mirror
lookup with the create/verify/conflict decision, and the pass tail. -/
def reconcile (env : Env) (rg : RG) : List Effect × RResultM :=
  match rg.annots with
  | none => ([], okResult)
  | some ann =>
    let localName := rg.name
    let syncDone := getA ann RGSyncComplete == yesVal
    let remoteName := initRemoteName localName ann rg.spec.remoteClusterID
    let localCID := effClusterID env rg.spec.remoteClusterID
    let remoteRG := buildRemoteRG env rg ann remoteName localCID
    if !env.connOK then ([], errResult)
    else
      match deletionBranch env rg ann with
      | some r => r
      | none =>
        match addFinalizerIfNotExist rg RGFinalizer with
        | (true, rg2) =>
          ([Effect.updateLocal rg2], if env.updateLocalOK then okResult else errResult)
        | (false, _) =>
          if hasA ann DeletionRequested then
            ([Effect.deleteLocal rg], if env.deleteLocalOK then okResult else errResult)
          else
            match env.getRemoteRG remoteName with
            | Lk.errOther => ([], { requeue := true, requeueAfterMs := 0, isErr := true })
            | Lk.notFound =>
              if syncDone then ([], okResult)
              else
                finishPass env rg localName remoteRG
                  (!(strContains remoteName doubleReplicated)) false remoteName
            | Lk.found m =>
              if m.spec.remoteClusterID == localCID then
                if m.spec.driverName != remoteRG.spec.driverName then
                  let rn := "SourceClusterId-" ++ localCID ++ "-" ++ localName
                  finishPass env rg localName { remoteRG with name := rn } true false rn
                else
                  if m.spec.protectionGroupID != remoteRG.spec.protectionGroupID ||
                     m.spec.remoteProtectionGroupID != remoteRG.spec.remoteProtectionGroupID then
                    ([Effect.eventRecord "Warning" "Updated" "Found conflicting RG on remote cluster"],
                     okResult)
                  else
                    finishPass env rg localName remoteRG false syncDone remoteName
              else
                let rn := "SourceClusterId-" ++ localCID ++ "-" ++ localName
                finishPass env rg localName { remoteRG with name := rn } true false rn

/-! ### Concrete fixtures used by witnesses and counterexamples -/

/-- A quiescent status (no conditions, no last action). -/
def quietStatus : RGStatusM :=
  { conditions := [],
    lastAction := { condition := "", actionAttributes := [], errorMessage := "", time := none } }

/-- A sample spec for a group replicating to cluster `c2`. -/
def specA : RGSpecM :=
  { driverName := "csi-vxflexos.dellemc.com", action := "", remoteClusterID := "c2",
    protectionGroupID := "pg1", protectionGroupAttributes := [("a", "1")],
    remoteProtectionGroupID := "rpg1", remoteProtectionGroupAttributes := [("b", "2")] }

/-- A base environment: cluster `c1`, healthy connection, every remote object
absent, every create/update succeeding, and an action payload decoding to
namespace `ns1`. -/
def envA : Env :=
  { clusterID := "c1", domain := "replication.storage.dell.com", connOK := true,
    getRemoteRG := fun _ => Lk.notFound,
    updateRemoteOK := true, updateLocalOK := true, deleteLocalOK := true, createRemoteOK := true,
    getNamespaceOK := fun _ => false, createNamespaceOK := fun _ => true,
    getSnapshotClass := fun _ => Lk.notFound, createSnapshotClassOK := true,
    createContentOK := true, createObjectOK := true, createPVCOK := true,
    getStorageClass := fun _ => Lk.notFound,
    listPVCs := fun _ => Lk.notFound, getPV := fun _ => Lk.notFound,
    parseActionAnn := fun _ => some { snapshotNamespace := "ns1" }, nowUnix := 1700000000 }

/-- A last action reporting a completed snapshot creation at time `t1` for the
volume pair `vol-h1 -> snap-h1`. -/
def snapAction : LastActionM :=
  { condition := "Action CREATE_SNAPSHOT succeeded", actionAttributes := [("vol-h1", "snap-h1")],
    errorMessage := "", time := some "t1" }

/-- Local group `rg1`, synced, with the snapshot action recorded and no
`ActionProcessedTime` annotation yet. -/
def rgNoStamp : RG :=
  { name := "rg1",
    annots := some [(RGSyncComplete, "yes"), (ActionKey, "act"), (RemoteReplicationGroup, "rg1")],
    labels := [(DriverName, "csi-vxflexos.dellemc.com")],
    spec := specA, deletionTimestampSet := false, finalizers := [RGFinalizer],
    status := { conditions := ["ok"], lastAction := snapAction } }

/-- The same group with a stale `ActionProcessedTime` stamp `t0`. -/
def rgStale : RG :=
  { rgNoStamp with
    annots := some [(RGSyncComplete, "yes"), (ActionKey, "act"),
                    (RemoteReplicationGroup, "rg1"), (ActionProcessedTime, "t0")] }

/-! ### C1 -/

/-- C1 (counterexample): for a synced group whose `LastAction` is a completed
`CREATE_SNAPSHOT` with timestamp `t1` and no error, but with no prior
`ActionProcessedTime` annotation, one call to the action-processing step
issues no effect at all: it neither dispatches the Snapshot Materializer nor
stamps `ActionProcessedTime` (source lines 333-337 return early when the
annotation is absent), contradicting the claim that it dispatches and stamps. -/
theorem c1_counterexample_absent_stamp_is_noop :
    processLastActionResult envA rgNoStamp = ([], false) := by decide

/-- C1 (amended): when the `ActionProcessedTime` annotation is present with a
value differing from the action's timestamp — rather than absent — one call to
the action-processing step dispatches the Snapshot Materializer, which creates
the namespace (when absent), the default snapshot class derived from the
driver label, a snapshot-content named from the volume handle and the current
time, and a snapshot object referencing it, and then stamps
`ActionProcessedTime` with the action's timestamp. -/
theorem c1_snapshot_dispatch_requires_stale_stamp (env : Env) (rg : RG) (ann : AList)
    (t v payload ns vh sh dc : String)
    (hann : rg.annots = some ann)
    (hcond : rg.status.conditions ≠ [])
    (htime : rg.status.lastAction.time = some t)
    (herr : rg.status.lastAction.errorMessage = "")
    (hproc : lookupA ann ActionProcessedTime = some v)
    (hne : (v == t) = false)
    (hkw : strContains rg.status.lastAction.condition createSnapshotKw = true)
    (hpairs : rg.status.lastAction.actionAttributes = [(vh, sh)])
    (hact : lookupA ann ActionKey = some payload)
    (hparse : env.parseActionAnn payload = some { snapshotNamespace := ns })
    (hnsAbsent : env.getNamespaceOK ns = false)
    (hnsCreate : env.createNamespaceOK ns = true)
    (hsnAnn : lookupA ann SnapshotClass = none)
    (hdc : lookupA rg.labels DriverName = some dc)
    (hscNF : env.getSnapshotClass (defaultSnapClassName dc) = Lk.notFound)
    (hscCreate : env.createSnapshotClassOK = true)
    (hnoPvc : lookupA ann (env.domain ++ "/snapshotCreatePVC") = none)
    (hcont : env.createContentOK = true)
    (hobj : env.createObjectOK = true) :
    processLastActionResult env rg =
      ([Effect.createNamespace ns,
        Effect.createSnapshotClass (makeSnapshotClassRef dc (defaultSnapClassName dc)),
        Effect.createSnapshotContent
          (makeVolSnapContent sh vh (makeSnapReference sh ns)
            (makeSnapshotClassRef dc (defaultSnapClassName dc)) env.nowUnix),
        Effect.createSnapshotObject
          (makeSnapshotObject ("snapshot-" ++ sh) ("volume-" ++ vh ++ "-" ++ toString env.nowUnix)
            (defaultSnapClassName dc) ns),
        Effect.updateLocal (addAnnRG rg ActionProcessedTime t)], false) := by
  obtain ⟨c, cs, hcs⟩ : ∃ c cs, rg.status.conditions = c :: cs := by
    cases h : rg.status.conditions with
    | nil => exact absurd h hcond
    | cons a l => exact ⟨a, l, rfl⟩
  simp only [processLastActionResult, processSnapshotEvent, snapPairLoop, getA,
    hann, hcs, htime, herr, hproc, hne, hkw, hpairs, hact, hparse, hnsAbsent, hnsCreate,
    hsnAnn, hdc, hscNF, hscCreate, hnoPvc, hcont, hobj,
    Option.getD, Option.join, Option.isNone, List.isEmpty,
    Bool.false_and, Bool.and_false, Bool.not_false, Bool.not_true, Bool.false_or,
    if_true, if_false, ite_true, ite_false]
  have e1 : ("" == "") = true := rfl
  have e2 : ("" != "") = false := rfl
  have e3 : ("" == "true") = false := rfl
  simp [e1, e2, e3, hscNF, hscCreate, hcont, hobj,
    makeSnapReference, makeSnapshotObject, makeVolSnapContent, makeSnapshotClassRef]

/-- C1 (witness): the amended theorem applied to the concrete stale-stamp
fixture. -/
theorem c1_witness_dispatch :
    processLastActionResult envA rgStale =
      ([Effect.createNamespace "ns1",
        Effect.createSnapshotClass
          (makeSnapshotClassRef "csi-vxflexos.dellemc.com"
            (defaultSnapClassName "csi-vxflexos.dellemc.com")),
        Effect.createSnapshotContent
          (makeVolSnapContent "snap-h1" "vol-h1" (makeSnapReference "snap-h1" "ns1")
            (makeSnapshotClassRef "csi-vxflexos.dellemc.com"
              (defaultSnapClassName "csi-vxflexos.dellemc.com")) envA.nowUnix),
        Effect.createSnapshotObject
          (makeSnapshotObject ("snapshot-" ++ "snap-h1")
            ("volume-" ++ "vol-h1" ++ "-" ++ toString envA.nowUnix)
            (defaultSnapClassName "csi-vxflexos.dellemc.com") "ns1"),
        Effect.updateLocal (addAnnRG rgStale ActionProcessedTime "t1")], false) :=
  c1_snapshot_dispatch_requires_stale_stamp envA rgStale
    [(RGSyncComplete, "yes"), (ActionKey, "act"),
     (RemoteReplicationGroup, "rg1"), (ActionProcessedTime, "t0")]
    "t1" "t0" "act" "ns1" "vol-h1" "snap-h1" "csi-vxflexos.dellemc.com"
    rfl (by decide) rfl rfl rfl rfl (by decide) rfl rfl rfl rfl rfl rfl rfl rfl rfl rfl rfl rfl

/-! ### C2 -/

/-- C2 (amended helper state): the stale-stamp group whose action payload does
not decode. -/
def envBadParse : Env := { envA with parseActionAnn := fun _ => none }

/-- C2 (counterexample): with an action annotation that fails to parse, the
action-processing step does propagate an error, but it still stamps
`ActionProcessedTime` with the action's timestamp (source lines 344-352 stamp
unconditionally after the dispatch attempt), so the action is not eligible for
re-processing; this contradicts the claim that the stamp is withheld. -/
theorem c2_counterexample_stamp_after_parse_failure :
    processLastActionResult envBadParse rgStale =
      ([Effect.updateLocal (addAnnRG rgStale ActionProcessedTime "t1")], true) ∧
    lookupA ((addAnnRG rgStale ActionProcessedTime "t1").annots.getD []) ActionProcessedTime =
      some "t1" := by constructor <;> decide

/-- C2 (amended): for every local resource whose `LastAction` carries an
action annotation that fails to parse as JSON, action processing propagates an
error but still stamps the `ActionProcessedTime` annotation with the action's
timestamp, so the same action is not re-processed on the next
action-processing attempt. -/
theorem c2_parse_failure_errors_but_stamps (env : Env) (rg : RG) (ann : AList)
    (t v payload : String)
    (hann : rg.annots = some ann)
    (hcond : rg.status.conditions ≠ [])
    (htime : rg.status.lastAction.time = some t)
    (herr : rg.status.lastAction.errorMessage = "")
    (hproc : lookupA ann ActionProcessedTime = some v)
    (hne : (v == t) = false)
    (hkw : strContains rg.status.lastAction.condition createSnapshotKw = true)
    (hact : lookupA ann ActionKey = some payload)
    (hparse : env.parseActionAnn payload = none) :
    processLastActionResult env rg =
      ([Effect.updateLocal (addAnnRG rg ActionProcessedTime t)], true) := by
  obtain ⟨c, cs, hcs⟩ : ∃ c cs, rg.status.conditions = c :: cs := by
    cases h : rg.status.conditions with
    | nil => exact absurd h hcond
    | cons a l => exact ⟨a, l, rfl⟩
  simp only [processLastActionResult, processSnapshotEvent,
    hann, hcs, htime, herr, hproc, hne, hkw, hact, hparse,
    Option.getD, Option.isNone, List.isEmpty, if_true, if_false, ite_true, ite_false]
  simp

/-- C2 (witness): the amended theorem applied to the parse-failure fixture. -/
theorem c2_witness_parse_failure :
    processLastActionResult envBadParse rgStale =
      ([Effect.updateLocal (addAnnRG rgStale ActionProcessedTime "t1")], true) :=
  c2_parse_failure_errors_but_stamps envBadParse rgStale
    [(RGSyncComplete, "yes"), (ActionKey, "act"),
     (RemoteReplicationGroup, "rg1"), (ActionProcessedTime, "t0")]
    "t1" "t0" "act" rfl (by decide) rfl rfl rfl rfl (by decide) rfl rfl

/-! ### C3 -/

/-- C3: for every local resource whose `LastAction` has timestamp `t` and
whose `ActionProcessedTime` annotation already equals `t`, the
action-processing step performs no side effect at all: no materializer
dispatch, no remote call and no annotation update (at-most-once processing per
distinct action timestamp, source lines 339-342). -/
theorem c3_equal_stamp_noop (env : Env) (rg : RG) (t : String)
    (htime : rg.status.lastAction.time = some t)
    (hproc : lookupA (rg.annots.getD []) ActionProcessedTime = some t) :
    (processLastActionResult env rg).1 = [] := by
  unfold processLastActionResult
  rw [htime, hproc]
  simp
  split
  · rfl
  · split <;> rfl

/-- C3 (witness): the guard theorem applied to a concrete synced group whose
stamp equals the action timestamp. -/
theorem c3_witness_equal_stamp :
    (processLastActionResult envA (addAnnRG rgStale ActionProcessedTime "t1")).1 = [] :=
  c3_equal_stamp_noop envA (addAnnRG rgStale ActionProcessedTime "t1") "t1" rfl (by decide)

/-! ### C4 -/

/-- The remote mirror `m1`, already carrying the `DeletionRequested`
annotation. -/
def mirrorDR : RG :=
  { name := "m1", annots := some [(DeletionRequested, "yes")], labels := [],
    spec := specA, deletionTimestampSet := false, finalizers := [], status := quietStatus }

/-- Environment in which the remote cluster holds exactly the mirror `m1`. -/
def envDel : Env :=
  { envA with getRemoteRG := fun n => if n == "m1" then Lk.found mirrorDR else Lk.notFound }

/-- A deleting local group with delete retention whose own annotations already
carry `DeletionRequested` (set by the opposite-side controller). -/
def rgDelLocalDR : RG :=
  { name := "rg1",
    annots := some [(RemoteRGRetentionPolicy, "delete"), (DeletionRequested, "yes"),
                    (RemoteReplicationGroup, "m1")],
    labels := [], spec := specA, deletionTimestampSet := true, finalizers := [RGFinalizer],
    status := quietStatus }

/-- The same deleting group without the local `DeletionRequested` annotation
(the ordinary handshake path). -/
def rgDelHandshake : RG :=
  { rgDelLocalDR with
    annots := some [(RemoteRGRetentionPolicy, "delete"), (RemoteReplicationGroup, "m1")] }

/-- C4 (counterexample): a deleting resource with delete retention whose own
annotations carry `DeletionRequested`, while its remote mirror exists and also
carries `DeletionRequested`: the pass removes the local finalizer immediately
and returns success with no retry and no remote fetch (source line 168 skips
the whole handshake), contradicting the claim that such a pass requests a
retry and removes the finalizer only after the mirror is confirmed absent. -/
theorem c4_counterexample_local_deletion_requested :
    reconcile envDel rgDelLocalDR =
      ([Effect.updateLocal { rgDelLocalDR with finalizers := [] }], okResult) := by decide

/-- C4 (amended): in the deletion branch with the local resource not itself
carrying `DeletionRequested`: (1) with delete retention, once the remote
mirror carries `DeletionRequested`, the pass issues no effect at all — it
never unsets the annotation and never re-issues the remote update — and
requests a retry; (2) the local finalizer is removed only once the remote
fetch returns not-found; (3) with a non-delete policy it is removed without
any remote deletion handshake. -/
theorem c4_deletion_handshake_monotone (env : Env) (rg : RG) (ann : AList) (m : RG)
    (hann : rg.annots = some ann)
    (hconn : env.connOK = true)
    (hdel : rg.deletionTimestampSet = true)
    (hnoLocalDR : lookupA ann DeletionRequested = none) :
    (retentionIsDelete ann = true →
      env.getRemoteRG (getA ann RemoteReplicationGroup) = Lk.found m →
      hasA (m.annots.getD []) DeletionRequested = true →
      reconcile env rg = ([], { requeue := true, requeueAfterMs := 0, isErr := false })) ∧
    (env.getRemoteRG (getA ann RemoteReplicationGroup) = Lk.notFound →
      rg.finalizers.contains RGFinalizer = true →
      reconcile env rg =
        ([Effect.updateLocal
            { rg with finalizers := rg.finalizers.filter (fun x => x != RGFinalizer) }],
         if env.updateLocalOK then okResult else errResult)) ∧
    (retentionIsDelete ann = false →
      env.getRemoteRG (getA ann RemoteReplicationGroup) = Lk.found m →
      rg.finalizers.contains RGFinalizer = true →
      reconcile env rg =
        ([Effect.updateLocal
            { rg with finalizers := rg.finalizers.filter (fun x => x != RGFinalizer) }],
         if env.updateLocalOK then okResult else errResult)) := by
  refine ⟨?_, ?_, ?_⟩
  · intro hpol hfound hmdr
    obtain ⟨dv, hdv⟩ := Option.isSome_iff_exists.mp
      (show (lookupA (m.annots.getD []) DeletionRequested).isSome = true from hmdr)
    simp only [reconcile, deletionBranch, deletionInner, hann, hconn, hdel, hasA, hnoLocalDR,
      hpol, hfound, hdv, Option.isSome, Bool.not_true, Bool.not_false,
      if_true, if_false, ite_true, ite_false]
    simp
  · intro hnf hfin
    simp only [reconcile, deletionBranch, deletionInner, removeFinalizerIfExists,
      hann, hconn, hdel, hasA, hnoLocalDR, hnf, hfin, Option.isSome,
      Bool.not_true, Bool.not_false, if_true, if_false, ite_true, ite_false]
    simp
  · intro hpol hfound hfin
    simp only [reconcile, deletionBranch, deletionInner, removeFinalizerIfExists,
      hann, hconn, hdel, hasA, hnoLocalDR, hpol, hfound, hfin, Option.isSome,
      Bool.not_true, Bool.not_false, if_true, if_false, ite_true, ite_false]
    simp

/-- C4 (witness): the amended theorem's retry conjunct applied to the concrete
handshake fixture. -/
theorem c4_witness_handshake :
    reconcile envDel rgDelHandshake = ([], { requeue := true, requeueAfterMs := 0, isErr := false }) :=
  (c4_deletion_handshake_monotone envDel rgDelHandshake
      [(RemoteRGRetentionPolicy, "delete"), (RemoteReplicationGroup, "m1")] mirrorDR
      rfl rfl rfl rfl).1 (by decide) (by decide) (by decide)

/-! ### C6 -/

/-- C6: when the remote mirror exists, its recorded `RemoteClusterID` matches
the local cluster identity, its driver name matches, but one of its
protection-group identifiers differs from the intended mirror's, `Reconcile`
emits a single warning event and returns success — no retry requested and no
mutation of either resource (source lines 267-276). -/
theorem c6_conflict_terminal (env : Env) (rg : RG) (ann : AList) (m : RG)
    (hann : rg.annots = some ann)
    (hconn : env.connOK = true)
    (hactive : rg.deletionTimestampSet = false)
    (hfin : rg.finalizers.contains RGFinalizer = true)
    (hnoDR : lookupA ann DeletionRequested = none)
    (hfound : env.getRemoteRG (initRemoteName rg.name ann rg.spec.remoteClusterID) = Lk.found m)
    (hprov : m.spec.remoteClusterID = effClusterID env rg.spec.remoteClusterID)
    (hdrv : m.spec.driverName = rg.spec.driverName)
    (hmis : m.spec.protectionGroupID ≠ rg.spec.remoteProtectionGroupID ∨
            m.spec.remoteProtectionGroupID ≠ rg.spec.protectionGroupID) :
    reconcile env rg =
      ([Effect.eventRecord "Warning" "Updated" "Found conflicting RG on remote cluster"],
       okResult) := by
  simp only [reconcile, deletionBranch, addFinalizerIfNotExist, buildRemoteRG,
    hann, hconn, hactive, hfin, hasA, hnoDR, hfound, Option.isSome,
    Bool.not_true, Bool.not_false, if_true, if_false, ite_true, ite_false]
  simp only [hprov, hdrv, beq_self_eq_true, bne_self_eq_false, if_true, ite_true, ite_false,
    Bool.not_false]
  rcases hmis with h | h <;> simp [bne_iff_ne, h]

/-- Remote mirror for the conflict scenario: provenance and driver match, but
the protection-group identifier differs. -/
def mirrorConflict : RG :=
  { name := "rg1", annots := some [], labels := [],
    spec := { specA with remoteClusterID := "c1", protectionGroupID := "pg-other" },
    deletionTimestampSet := false, finalizers := [], status := quietStatus }

/-- Environment holding the conflicting mirror under the local group's name. -/
def envConflict : Env :=
  { envA with getRemoteRG := fun n => if n == "rg1" then Lk.found mirrorConflict else Lk.notFound }

/-- Active, initialized, not-yet-synced local group `rg1` with its finalizer. -/
def rgActive : RG :=
  { name := "rg1", annots := some [], labels := [(DriverName, "csi-vxflexos.dellemc.com")],
    spec := specA, deletionTimestampSet := false, finalizers := [RGFinalizer],
    status := quietStatus }

/-- C6 (witness): the conflict theorem applied to the concrete mismatched
mirror. -/
theorem c6_witness_conflict :
    reconcile envConflict rgActive =
      ([Effect.eventRecord "Warning" "Updated" "Found conflicting RG on remote cluster"],
       okResult) :=
  c6_conflict_terminal envConflict rgActive [] mirrorConflict
    rfl rfl rfl rfl rfl (by decide) (by decide) (by decide)
    (Or.inl (by decide))

/-! ### C7 -/

/-- C7: when the remote mirror lookup returns not-found while the local
resource already carries `RGSyncComplete=yes`, `Reconcile` returns success
with no effect at all — no remote mirror creation near and no retry requested
(source lines 232-242). -/
theorem c7_vanished_after_sync_no_recreate (env : Env) (rg : RG) (ann : AList)
    (hann : rg.annots = some ann)
    (hsync : lookupA ann RGSyncComplete = some yesVal)
    (hconn : env.connOK = true)
    (hactive : rg.deletionTimestampSet = false)
    (hfin : rg.finalizers.contains RGFinalizer = true)
    (hnoDR : lookupA ann DeletionRequested = none)
    (hnf : env.getRemoteRG (initRemoteName rg.name ann rg.spec.remoteClusterID) = Lk.notFound) :
    reconcile env rg = ([], okResult) := by
  simp only [reconcile, deletionBranch, addFinalizerIfNotExist, getA,
    hann, hsync, hconn, hactive, hfin, hasA, hnoDR, hnf, Option.isSome, Option.getD,
    Bool.not_true, Bool.not_false, if_true, if_false, ite_true, ite_false]
  simp [yesVal]

/-- The synced group whose mirror has vanished. -/
def rgSynced : RG :=
  { rgActive with
    annots := some [(RGSyncComplete, "yes"), (RemoteReplicationGroup, "rg1")] }

/-- C7 (witness): the no-recreate theorem applied to the synced group against
an empty remote cluster. -/
theorem c7_witness_vanished : reconcile envA rgSynced = ([], okResult) :=
  c7_vanished_after_sync_no_recreate envA rgSynced
    [(RGSyncComplete, "yes"), (RemoteReplicationGroup, "rg1")]
    rfl rfl rfl rfl rfl rfl rfl

/-! ### Effect-trace classification helpers

Shared lemmas bounding which remote-mirror effects each stage of the pass can
issue: the snapshot workflow issues none, and mirror creation only occurs in
the pass tail with the candidate mirror object. -/

/-- Whether an effect is a remote-mirror update call. -/
def updatedRemoteRG : Effect → Bool
  | Effect.updateRemoteRG _ => true
  | _ => false

/-- The name of the mirror created by an effect, when it is a remote-mirror
create call. -/
def createdRGName : Effect → Option String
  | Effect.createRemoteRG g => some g.name
  | _ => none

/-- Whether a trace touches no remote mirror at all (neither update nor
create). -/
def remoteRGFree (l : List Effect) : Bool :=
  l.all (fun e => !(updatedRemoteRG e) && (createdRGName e).isNone)

/-- Whether a trace contains no remote-mirror update call. -/
def noRemoteUpdates (l : List Effect) : Bool :=
  l.all (fun e => !(updatedRemoteRG e))

/-- Whether every remote-mirror create in the trace uses one of two names. -/
def createdNamesIn (l : List Effect) (n1 n2 : String) : Bool :=
  l.all (fun e =>
    match createdRGName e with
    | some n => n == n1 || n == n2
    | none => true)

/-- Whether no remote-mirror create in the trace uses the given name. -/
def noCreateNamed (l : List Effect) (bad : String) : Bool :=
  l.all (fun e =>
    match createdRGName e with
    | some n => n != bad
    | none => true)

theorem remoteRGFree_append (a b : List Effect) :
    remoteRGFree (a ++ b) = (remoteRGFree a && remoteRGFree b) := by
  simp [remoteRGFree, List.all_append]

theorem remoteRGFree_nil : remoteRGFree [] = true := rfl

theorem remoteRGFree_cons (e : Effect) (l : List Effect) :
    remoteRGFree (e :: l) =
      ((!(updatedRemoteRG e) && (createdRGName e).isNone) && remoteRGFree l) := by
  simp [remoteRGFree]

theorem snapPairLoop_remote_free (env : Env) (rg : RG) (sc : VolumeSnapshotClassM)
    (b : Bool) (stc : String) :
    ∀ (pairs : List (String × String)) (ns : String),
      remoteRGFree (snapPairLoop env rg sc b stc pairs ns).1 = true := by
  intro pairs
  induction pairs with
  | nil => intro ns; rfl
  | cons hd tl ih =>
    intro ns
    obtain ⟨vh, sh⟩ := hd
    simp only [snapPairLoop]
    repeat' split
    all_goals simp [remoteRGFree_append, remoteRGFree_cons, remoteRGFree_nil,
      updatedRemoteRG, createdRGName, ih]

theorem processSnapshotEvent_remote_free (env : Env) (rg : RG) :
    remoteRGFree (processSnapshotEvent env rg).1 = true := by
  simp only [processSnapshotEvent]
  repeat' split
  all_goals simp [remoteRGFree_append, remoteRGFree_cons, remoteRGFree_nil,
    updatedRemoteRG, createdRGName, snapPairLoop_remote_free]

theorem processLastActionResult_remote_free (env : Env) (rg : RG) :
    remoteRGFree (processLastActionResult env rg).1 = true := by
  simp only [processLastActionResult]
  repeat' split
  all_goals simp [remoteRGFree_append, remoteRGFree_cons, remoteRGFree_nil,
    updatedRemoteRG, createdRGName, processSnapshotEvent_remote_free]

theorem all_weaken {α : Type} {p q : α → Bool} (l : List α)
    (h : ∀ e, p e = true → q e = true) (hl : l.all p = true) : l.all q = true := by
  rw [List.all_eq_true] at hl ⊢
  intro x hx
  exact h x (hl x hx)

theorem noRemoteUpdates_nil : noRemoteUpdates [] = true := rfl

theorem noRemoteUpdates_cons (e : Effect) (l : List Effect) :
    noRemoteUpdates (e :: l) = (!(updatedRemoteRG e) && noRemoteUpdates l) := by
  simp [noRemoteUpdates]

theorem noRemoteUpdates_append (a b : List Effect) :
    noRemoteUpdates (a ++ b) = (noRemoteUpdates a && noRemoteUpdates b) := by
  simp [noRemoteUpdates, List.all_append]

theorem createdNamesIn_nil (n1 n2 : String) : createdNamesIn [] n1 n2 = true := rfl

theorem createdNamesIn_cons (e : Effect) (l : List Effect) (n1 n2 : String) :
    createdNamesIn (e :: l) n1 n2 =
      ((match createdRGName e with
        | some n => n == n1 || n == n2
        | none => true) && createdNamesIn l n1 n2) := by
  simp [createdNamesIn]

theorem createdNamesIn_append (a b : List Effect) (n1 n2 : String) :
    createdNamesIn (a ++ b) n1 n2 = (createdNamesIn a n1 n2 && createdNamesIn b n1 n2) := by
  simp [createdNamesIn, List.all_append]

theorem remoteRGFree_to_noRemoteUpdates (l : List Effect)
    (h : remoteRGFree l = true) : noRemoteUpdates l = true := by
  refine all_weaken l (fun e he => ?_) h
  cases e <;> simp_all [updatedRemoteRG, createdRGName]

theorem remoteRGFree_to_createdNamesIn (l : List Effect) (n1 n2 : String)
    (h : remoteRGFree l = true) : createdNamesIn l n1 n2 = true := by
  refine all_weaken l (fun e he => ?_) h
  cases e <;> simp_all [updatedRemoteRG, createdRGName]

theorem createdNamesIn_to_noCreateNamed (l : List Effect) (n1 n2 bad : String)
    (h : createdNamesIn l n1 n2 = true)
    (h1 : (n1 == bad) = false) (h2 : (n2 == bad) = false) :
    noCreateNamed l bad = true := by
  refine all_weaken l (fun e he => ?_) h
  cases e
  case createRemoteRG g =>
    simp only [createdRGName, Bool.or_eq_true, beq_iff_eq] at he ⊢
    rcases he with h | h
    · rw [bne, h, h1]; rfl
    · rw [bne, h, h2]; rfl
  all_goals simp [createdRGName]

theorem createdNamesIn_mono (l : List Effect) (n n1 n2 : String)
    (h : createdNamesIn l n n = true) (hn : n = n1 ∨ n = n2) :
    createdNamesIn l n1 n2 = true := by
  refine all_weaken l (fun e he => ?_) h
  cases e
  case createRemoteRG g =>
    simp only [createdRGName, Bool.or_eq_true, beq_iff_eq] at he ⊢
    rcases he with h | h <;> rcases hn with h2 | h2 <;> rw [h, h2] <;> simp
  all_goals simp [createdRGName]

theorem finishPass_no_remote_updates (env : Env) (rg : RG) (ln : String) (rrg : RG)
    (cf sd : Bool) (rn : String) :
    noRemoteUpdates (finishPass env rg ln rrg cf sd rn).1 = true := by
  have hp := remoteRGFree_to_noRemoteUpdates _ (processLastActionResult_remote_free env rg)
  simp only [finishPass]
  repeat' split
  all_goals simp [noRemoteUpdates_append, noRemoteUpdates_cons, noRemoteUpdates_nil,
    updatedRemoteRG, hp]

theorem finishPass_created (env : Env) (rg : RG) (ln : String) (rrg : RG)
    (cf sd : Bool) (rn : String) :
    createdNamesIn (finishPass env rg ln rrg cf sd rn).1 rrg.name rrg.name = true := by
  have hp := remoteRGFree_to_createdNamesIn _ rrg.name rrg.name
    (processLastActionResult_remote_free env rg)
  simp only [finishPass]
  repeat' split
  all_goals simp [createdNamesIn_append, createdNamesIn_cons, createdNamesIn_nil,
    createdRGName, hp]

theorem deletionInner_no_remote_updates (env : Env) (ann : AList)
    (hpol : retentionIsDelete ann = false) :
    ∀ r, deletionInner env ann = some r → noRemoteUpdates r.1 = true := by
  intro r hr
  simp only [deletionInner, hpol] at hr
  repeat' split at hr
  all_goals first
    | (injection hr with h; subst h; rfl)
    | simp_all

theorem deletionInner_no_creates (env : Env) (ann : AList) (n1 n2 : String) :
    ∀ r, deletionInner env ann = some r → createdNamesIn r.1 n1 n2 = true := by
  intro r hr
  simp only [deletionInner] at hr
  repeat' split at hr
  all_goals first
    | (injection hr with h; subst h; rfl)
    | simp_all

theorem deletionBranch_no_remote_updates (env : Env) (rg : RG) (ann : AList)
    (hpol : retentionIsDelete ann = false) :
    ∀ r, deletionBranch env rg ann = some r → noRemoteUpdates r.1 = true := by
  intro r hr
  rw [deletionBranch] at hr
  split at hr
  · exact absurd hr (by simp)
  · cases hd : deletionInner env ann with
    | some r2 =>
      rw [hd] at hr
      injection hr with h
      subst h
      exact deletionInner_no_remote_updates env ann hpol r2 hd
    | none =>
      rw [hd] at hr
      cases hf : rg.finalizers.contains RGFinalizer
      · simp only [removeFinalizerIfExists, hf] at hr
        simp at hr
      · simp only [removeFinalizerIfExists, hf, if_true, ite_true] at hr
        injection hr with h
        subst h
        rfl

theorem deletionBranch_no_creates (env : Env) (rg : RG) (ann : AList) (n1 n2 : String) :
    ∀ r, deletionBranch env rg ann = some r → createdNamesIn r.1 n1 n2 = true := by
  intro r hr
  rw [deletionBranch] at hr
  split at hr
  · exact absurd hr (by simp)
  · cases hd : deletionInner env ann with
    | some r2 =>
      rw [hd] at hr
      injection hr with h
      subst h
      exact deletionInner_no_creates env ann n1 n2 r2 hd
    | none =>
      rw [hd] at hr
      cases hf : rg.finalizers.contains RGFinalizer
      · simp only [removeFinalizerIfExists, hf] at hr
        simp at hr
      · simp only [removeFinalizerIfExists, hf, if_true, ite_true] at hr
        injection hr with h
        subst h
        rfl

/-- Case analysis over every effect trace a pass can produce: the empty trace,
a deletion-branch trace, a single local update/delete, a single event, or a
pass-tail trace with one of the two candidate mirror objects. -/
theorem reconcile_effects_split (env : Env) (rg : RG) (ann : AList)
    (hann : rg.annots = some ann) (p : List Effect → Bool)
    (hnil : p [] = true)
    (hdb : ∀ r, deletionBranch env rg ann = some r → p r.1 = true)
    (hupd : ∀ g, p [Effect.updateLocal g] = true)
    (hdel : ∀ g, p [Effect.deleteLocal g] = true)
    (hevt : ∀ t r n, p [Effect.eventRecord t r n] = true)
    (hfp : ∀ rrg cf sd rn,
      (rrg.name = initRemoteName rg.name ann rg.spec.remoteClusterID ∨
       rrg.name = "SourceClusterId-" ++ effClusterID env rg.spec.remoteClusterID ++ "-" ++ rg.name) →
      p (finishPass env rg rg.name rrg cf sd rn).1 = true) :
    p (reconcile env rg).1 = true := by
  simp only [reconcile, hann]
  repeat' split
  all_goals first
    | exact hnil
    | (apply hdb; assumption)
    | exact hupd _
    | exact hdel _
    | exact hevt _ _ _
    | (refine hfp _ _ _ _ (Or.inl ?_); rfl)
    | (refine hfp _ _ _ _ (Or.inr ?_); rfl)

/-- Any mirror created by the pass is named either by the computed remote name
or by the cluster-qualified rename; shared bound used by several claims. -/
theorem reconcile_created_names (env : Env) (rg : RG) (ann : AList)
    (hann : rg.annots = some ann) :
    createdNamesIn (reconcile env rg).1
      (initRemoteName rg.name ann rg.spec.remoteClusterID)
      ("SourceClusterId-" ++ effClusterID env rg.spec.remoteClusterID ++ "-" ++ rg.name) = true := by
  refine reconcile_effects_split env rg ann hann
    (fun l => createdNamesIn l (initRemoteName rg.name ann rg.spec.remoteClusterID)
      ("SourceClusterId-" ++ effClusterID env rg.spec.remoteClusterID ++ "-" ++ rg.name)) rfl
    (deletionBranch_no_creates env rg ann _ _) (fun g => rfl) (fun g => rfl)
    (fun t r n => rfl) ?_
  intro rrg cf sd rn hname
  exact createdNamesIn_mono _ _ _ _ (finishPass_created env rg rg.name rrg cf sd rn) hname

/-- A pass over a resource whose retention policy does not resolve to delete
never issues a remote-mirror update; shared bound used by several claims. -/
theorem reconcile_no_remote_updates (env : Env) (rg : RG) (ann : AList)
    (hann : rg.annots = some ann) (hpol : retentionIsDelete ann = false) :
    noRemoteUpdates (reconcile env rg).1 = true := by
  refine reconcile_effects_split env rg ann hann noRemoteUpdates rfl
    (deletionBranch_no_remote_updates env rg ann hpol) (fun g => rfl) (fun g => rfl)
    (fun t r n => rfl) ?_
  intro rrg cf sd rn _
  exact finishPass_no_remote_updates env rg rg.name rrg cf sd rn

/-! ### C5 -/

/-- The local name `vol-a`. -/
def nVolA : String := "vol-a"

/-- The derived self-mirror name `replicated-vol-a`. -/
def nRepVolA : String := "replicated-vol-a"

/-- The runaway doubly-prefixed name that must never be created. -/
def nRepRepVolA : String := "replicated-replicated-vol-a"

/-- A group already named `replicated-vol-a` that self-mirrors. -/
def rgRepl : RG :=
  { name := nRepVolA, annots := some [], labels := [],
    spec := { specA with remoteClusterID := Self }, deletionTimestampSet := false,
    finalizers := [RGFinalizer], status := quietStatus }

/-- C5: self-mirroring naming.  (1) a resource named `vol-a` whose remote
cluster is the sentinel `self` gets the computed mirror name
`replicated-vol-a`, whatever its annotations; (2) a resource already named
`replicated-vol-a` keeps that computed name rather than gaining a second
prefix; and (3) no pass over such a resource, under any environment, ever
issues a remote-mirror create named `replicated-replicated-vol-a`. -/
theorem c5_self_mirror_naming :
    (∀ ann : AList, initRemoteName nVolA ann Self = nRepVolA) ∧
    initRemoteName nRepVolA [] Self = nRepVolA ∧
    (∀ env : Env, noCreateNamed (reconcile env rgRepl).1 nRepRepVolA = true) := by
  refine ⟨?_, by decide, ?_⟩
  · intro ann
    have hc : (Self == Self && !(strStarts nVolA replicated)) = true := by decide
    simp only [initRemoteName, hc, if_true, ite_true]
    decide
  · intro env
    have h := reconcile_created_names env rgRepl [] rfl
    have he : effClusterID env rgRepl.spec.remoteClusterID = Self := rfl
    have h2 : (("SourceClusterId-" ++ effClusterID env rgRepl.spec.remoteClusterID ++ "-" ++
        rgRepl.name) == nRepRepVolA) = false := by
      rw [he]
      decide
    exact createdNamesIn_to_noCreateNamed _ _ _ _ h (by decide) h2

/-! ### C8 -/

/-- C8: the retention decision is a pure case-insensitive function of the
`RemoteRGRetentionPolicy` annotation: (1) with the annotation present, the
decision is exactly the case-folded comparison of its value with `delete`;
(2) with the annotation absent, the decision is retain; and (3) a deleting
resource with no such annotation never has any update issued to its remote
mirror (in particular `DeletionRequested` is never written there). -/
theorem c8_retention_decision :
    (∀ (ann : AList) (v : String), lookupA ann RemoteRGRetentionPolicy = some v →
      retentionIsDelete ann = (strLower v == RemoteRetentionValueDelete)) ∧
    (∀ ann : AList, lookupA ann RemoteRGRetentionPolicy = none →
      retentionIsDelete ann = false) ∧
    (∀ (env : Env) (rg : RG) (ann : AList), rg.annots = some ann →
      rg.deletionTimestampSet = true →
      lookupA ann RemoteRGRetentionPolicy = none →
      noRemoteUpdates (reconcile env rg).1 = true) := by
  have habs : ∀ ann : AList, lookupA ann RemoteRGRetentionPolicy = none →
      retentionIsDelete ann = false := by
    intro ann h
    simp only [retentionIsDelete, retentionValue, h]
    decide
  refine ⟨?_, habs, ?_⟩
  · intro ann v h
    simp only [retentionIsDelete, retentionValue, h]
  · intro env rg ann hann hdel hnone
    exact reconcile_no_remote_updates env rg ann hann (habs ann hnone)

/-- A deleting local group with no retention-policy annotation whose remote
mirror `m1` exists. -/
def rgRetainDel : RG :=
  { name := "rg1", annots := some [(RemoteReplicationGroup, "m1")], labels := [],
    spec := specA, deletionTimestampSet := true, finalizers := [RGFinalizer],
    status := quietStatus }

/-- C8 (witness): the retention theorem's no-remote-update conjunct applied to
the concrete deleting group with no policy annotation. -/
theorem c8_witness_retention :
    noRemoteUpdates (reconcile envDel rgRetainDel).1 = true :=
  c8_retention_decision.2.2 envDel rgRetainDel [(RemoteReplicationGroup, "m1")] rfl rfl rfl

/-! ### C9 -/

/-- The local name `rg1`. -/
def nRG1 : String := "rg1"

/-- The local cluster identifier `c1`. -/
def cC1 : String := "c1"

/-- C9 (counterexample): scenario B on the concrete fixture — the very pass
that creates the remote mirror also writes `RGSyncComplete=yes` (together with
`RemoteReplicationGroup`) to the local resource, contradicting the claim that
the flag is set on the next pass rather than in the same pass as the
creation. -/
theorem c9_counterexample_same_pass_sync :
    reconcile envA rgActive =
      ([Effect.createRemoteRG (buildRemoteRG envA rgActive [] nRG1 cC1),
        Effect.eventRecord "Normal" "Updated"
          ("Created remote ReplicationGroup with name: " ++ nRG1),
        Effect.updateLocal
          (addAnnRG (addAnnRG rgActive RemoteReplicationGroup nRG1) RGSyncComplete yesVal)],
       okResult) ∧
    lookupA ((addAnnRG (addAnnRG rgActive RemoteReplicationGroup nRG1)
        RGSyncComplete yesVal).annots.getD []) RGSyncComplete = some yesVal := by
  constructor <;> decide

/-- C9 (amended): for a local resource with annotations present, finalizer
present, no deletion timestamp, sync not complete and no same-named resource
on the remote cluster, one pass creates the remote mirror whose
protection-group fields are the swapped view of the local spec, emits a normal
event, and stamps `RemoteReplicationGroup` plus `RGSyncComplete=yes` on the
local resource in the same pass as the creation (action processing is then
deferred to a later pass). -/
theorem c9_scenario_b_same_pass (env : Env) (rg : RG) (ann : AList)
    (hann : rg.annots = some ann)
    (hconn : env.connOK = true)
    (hactive : rg.deletionTimestampSet = false)
    (hfin : rg.finalizers.contains RGFinalizer = true)
    (hnoDR : lookupA ann DeletionRequested = none)
    (hnosync : lookupA ann RGSyncComplete = none)
    (hnf : env.getRemoteRG (initRemoteName rg.name ann rg.spec.remoteClusterID) = Lk.notFound)
    (hnorr : strContains (initRemoteName rg.name ann rg.spec.remoteClusterID) doubleReplicated
      = false)
    (hcreateOK : env.createRemoteOK = true)
    (hnorep : strContains rg.name replicated = false) :
    reconcile env rg =
      ([Effect.createRemoteRG
          (buildRemoteRG env rg ann (initRemoteName rg.name ann rg.spec.remoteClusterID)
            (effClusterID env rg.spec.remoteClusterID)),
        Effect.eventRecord "Normal" "Updated"
          ("Created remote ReplicationGroup with name: " ++
            initRemoteName rg.name ann rg.spec.remoteClusterID),
        Effect.updateLocal
          (addAnnRG (addAnnRG rg RemoteReplicationGroup
            (initRemoteName rg.name ann rg.spec.remoteClusterID)) RGSyncComplete yesVal)],
       if env.updateLocalOK then okResult else errResult) ∧
    (buildRemoteRG env rg ann (initRemoteName rg.name ann rg.spec.remoteClusterID)
        (effClusterID env rg.spec.remoteClusterID)).spec.protectionGroupID =
      rg.spec.remoteProtectionGroupID ∧
    (buildRemoteRG env rg ann (initRemoteName rg.name ann rg.spec.remoteClusterID)
        (effClusterID env rg.spec.remoteClusterID)).spec.remoteProtectionGroupID =
      rg.spec.protectionGroupID ∧
    (buildRemoteRG env rg ann (initRemoteName rg.name ann rg.spec.remoteClusterID)
        (effClusterID env rg.spec.remoteClusterID)).spec.protectionGroupAttributes =
      rg.spec.remoteProtectionGroupAttributes ∧
    (buildRemoteRG env rg ann (initRemoteName rg.name ann rg.spec.remoteClusterID)
        (effClusterID env rg.spec.remoteClusterID)).spec.remoteProtectionGroupAttributes =
      rg.spec.protectionGroupAttributes := by
  have hys : ((("" : String)) == yesVal) = false := by decide
  refine ⟨?_, rfl, rfl, rfl, rfl⟩
  simp only [reconcile, deletionBranch, addFinalizerIfNotExist, finishPass, getA,
    hann, hconn, hactive, hfin, hasA, hnoDR, hnosync, hnf, hnorr, hnorep, hcreateOK, hys,
    Option.getD, Option.isSome, Bool.not_true, Bool.not_false,
    if_true, if_false, ite_true, ite_false]
  simp

/-- C9 (witness): the amended theorem applied to the concrete scenario-B
fixture. -/
theorem c9_witness_scenario_b :
    reconcile envA rgActive =
      ([Effect.createRemoteRG (buildRemoteRG envA rgActive [] nRG1 cC1),
        Effect.eventRecord "Normal" "Updated"
          ("Created remote ReplicationGroup with name: " ++ nRG1),
        Effect.updateLocal
          (addAnnRG (addAnnRG rgActive RemoteReplicationGroup nRG1) RGSyncComplete yesVal)],
       okResult) ∧
    (buildRemoteRG envA rgActive [] nRG1 cC1).spec.protectionGroupID =
      rgActive.spec.remoteProtectionGroupID ∧
    (buildRemoteRG envA rgActive [] nRG1 cC1).spec.remoteProtectionGroupID =
      rgActive.spec.protectionGroupID ∧
    (buildRemoteRG envA rgActive [] nRG1 cC1).spec.protectionGroupAttributes =
      rgActive.spec.remoteProtectionGroupAttributes ∧
    (buildRemoteRG envA rgActive [] nRG1 cC1).spec.remoteProtectionGroupAttributes =
      rgActive.spec.protectionGroupAttributes :=
  c9_scenario_b_same_pass envA rgActive [] rfl rfl rfl rfl rfl rfl rfl
    (by decide) rfl (by decide)

/-! ### C10 -/

/-- C10: within one materializer invocation with claim creation enabled, once
the first pair's resolved source claim collides with the current target
namespace, the loop redirects to `cloned-<namespace>` and — as the first
conjunct shows for an arbitrary remaining pair list — every subsequent pair
runs against the cloned namespace.  The second conjunct instantiates this for
a second pair whose own source claim collides with neither the original nor
the redirected namespace: its snapshot reference, snapshot object and derived
claim are still created in the cloned namespace. -/
theorem c10_namespace_redirect_sticky (env : Env) (rg : RG) (sc : VolumeSnapshotClassM)
    (stc ns v1 s1 v2 s2 : String) (p1 p2 : PVCM)
    (h1 : Option.join (getPVCInfo env rg v1) = some p1)
    (hc1 : p1.namespaceName = ns)
    (h2 : Option.join (getPVCInfo env rg v2) = some p2)
    (_hno2 : (p2.namespaceName == ns) = false)
    (hc2 : (p2.namespaceName == clonedDash ++ ns) = false)
    (hcns : env.createNamespaceOK (clonedDash ++ ns) = true)
    (hcont : env.createContentOK = true)
    (hobj : env.createObjectOK = true)
    (hstc : env.getStorageClass stc = Lk.notFound)
    (hpvc : env.createPVCOK = true) :
    (∀ rest : List (String × String),
      snapPairLoop env rg sc true stc ((v1, s1) :: rest) ns =
        ([Effect.createNamespace (clonedDash ++ ns),
          Effect.createSnapshotContent
            (makeVolSnapContent s1 v1 (makeSnapReference s1 (clonedDash ++ ns)) sc env.nowUnix),
          Effect.createSnapshotObject
            (makeSnapshotObject ("snapshot-" ++ s1)
              ("volume-" ++ v1 ++ "-" ++ toString env.nowUnix) sc.name (clonedDash ++ ns)),
          Effect.createPVC
            (makePersistentVolumeClaimFromSnapshot p1.name (clonedDash ++ ns)
              ("snapshot-" ++ s1) stc p1.spec)] ++
          (snapPairLoop env rg sc true stc rest (clonedDash ++ ns)).1,
         (snapPairLoop env rg sc true stc rest (clonedDash ++ ns)).2)) ∧
    (snapPairLoop env rg sc true stc [(v1, s1), (v2, s2)] ns).1 =
      [Effect.createNamespace (clonedDash ++ ns),
       Effect.createSnapshotContent
         (makeVolSnapContent s1 v1 (makeSnapReference s1 (clonedDash ++ ns)) sc env.nowUnix),
       Effect.createSnapshotObject
         (makeSnapshotObject ("snapshot-" ++ s1)
           ("volume-" ++ v1 ++ "-" ++ toString env.nowUnix) sc.name (clonedDash ++ ns)),
       Effect.createPVC
         (makePersistentVolumeClaimFromSnapshot p1.name (clonedDash ++ ns)
           ("snapshot-" ++ s1) stc p1.spec),
       Effect.createSnapshotContent
         (makeVolSnapContent s2 v2 (makeSnapReference s2 (clonedDash ++ ns)) sc env.nowUnix),
       Effect.createSnapshotObject
         (makeSnapshotObject ("snapshot-" ++ s2)
           ("volume-" ++ v2 ++ "-" ++ toString env.nowUnix) sc.name (clonedDash ++ ns)),
       Effect.createPVC
         (makePersistentVolumeClaimFromSnapshot p2.name (clonedDash ++ ns)
           ("snapshot-" ++ s2) stc p2.spec)] := by
  have hstick : ∀ rest : List (String × String),
      snapPairLoop env rg sc true stc ((v1, s1) :: rest) ns =
        ([Effect.createNamespace (clonedDash ++ ns),
          Effect.createSnapshotContent
            (makeVolSnapContent s1 v1 (makeSnapReference s1 (clonedDash ++ ns)) sc env.nowUnix),
          Effect.createSnapshotObject
            (makeSnapshotObject ("snapshot-" ++ s1)
              ("volume-" ++ v1 ++ "-" ++ toString env.nowUnix) sc.name (clonedDash ++ ns)),
          Effect.createPVC
            (makePersistentVolumeClaimFromSnapshot p1.name (clonedDash ++ ns)
              ("snapshot-" ++ s1) stc p1.spec)] ++
          (snapPairLoop env rg sc true stc rest (clonedDash ++ ns)).1,
         (snapPairLoop env rg sc true stc rest (clonedDash ++ ns)).2) := by
    intro rest
    simp only [snapPairLoop, h1, hc1, hcns, hcont, hobj, hstc, hpvc,
      beq_self_eq_true, Bool.not_true, Bool.and_false, Bool.not_false,
      if_true, if_false, ite_true, ite_false]
    simp [makeSnapReference, makeSnapshotObject, makeVolSnapContent]
  refine ⟨hstick, ?_⟩
  rw [hstick [(v2, s2)]]
  simp only [snapPairLoop, h2, hc2, hcont, hobj, hstc, hpvc,
    Bool.not_true, Bool.false_and, Bool.and_false, Bool.not_false,
    if_true, if_false, ite_true, ite_false]
  simp [makeSnapReference, makeSnapshotObject, makeVolSnapContent]

/-- Source claim for volume `pv1` living in the snapshot target namespace
`ns1` (the colliding pair). -/
def pvcA : PVCM :=
  { name := "pvc1", namespaceName := "ns1",
    spec := { volumeName := "pv1", accessModes := ["ReadWriteOnce"], resources := "1Gi",
              storageClassName := some "sc-src", dataSourceKind := none,
              dataSourceName := none } }

/-- Source claim for volume `pv2` living in an unrelated namespace `nsB`. -/
def pvcB : PVCM :=
  { name := "pvc2", namespaceName := "nsB",
    spec := { volumeName := "pv2", accessModes := ["ReadWriteOnce"], resources := "2Gi",
              storageClassName := some "sc-src", dataSourceKind := none,
              dataSourceName := none } }

/-- Environment whose local inventory maps `vol-h1` to `pvcA` and `vol-h2` to
`pvcB`. -/
def envPVC : Env :=
  { envA with
    listPVCs := fun _ => Lk.found [pvcA, pvcB],
    getPV := fun n =>
      if n == "pv1" then Lk.found { name := "pv1", csiVolumeHandle := "vol-h1" }
      else if n == "pv2" then Lk.found { name := "pv2", csiVolumeHandle := "vol-h2" }
      else Lk.notFound }

/-- A snapshot class used by the redirect witness. -/
def snapClassA : VolumeSnapshotClassM :=
  { name := "default-vxflexos-snapshotclass", driver := "csi-vxflexos.dellemc.com",
    deletionPolicy := "Delete" }

/-- The target storage-class name used by the redirect witness. -/
def nScTgt : String := "sc-tgt"

/-- The original target namespace of the redirect witness. -/
def nNs1 : String := "ns1"

/-- C10 (witness): the sticky-redirect theorem's two-pair conjunct at the
concrete inventory — the second pair's claim lives in `nsB`, yet all its
objects are created in `cloned-ns1`. -/
theorem c10_witness_redirect :
    (snapPairLoop envPVC rgStale snapClassA true nScTgt
        [("vol-h1", "snap-h1"), ("vol-h2", "snap-h2")] nNs1).1 =
      [Effect.createNamespace (clonedDash ++ nNs1),
       Effect.createSnapshotContent
         (makeVolSnapContent "snap-h1" "vol-h1"
           (makeSnapReference "snap-h1" (clonedDash ++ nNs1)) snapClassA envPVC.nowUnix),
       Effect.createSnapshotObject
         (makeSnapshotObject ("snapshot-" ++ "snap-h1")
           ("volume-" ++ "vol-h1" ++ "-" ++ toString envPVC.nowUnix)
           snapClassA.name (clonedDash ++ nNs1)),
       Effect.createPVC
         (makePersistentVolumeClaimFromSnapshot pvcA.name (clonedDash ++ nNs1)
           ("snapshot-" ++ "snap-h1") nScTgt pvcA.spec),
       Effect.createSnapshotContent
         (makeVolSnapContent "snap-h2" "vol-h2"
           (makeSnapReference "snap-h2" (clonedDash ++ nNs1)) snapClassA envPVC.nowUnix),
       Effect.createSnapshotObject
         (makeSnapshotObject ("snapshot-" ++ "snap-h2")
           ("volume-" ++ "vol-h2" ++ "-" ++ toString envPVC.nowUnix)
           snapClassA.name (clonedDash ++ nNs1)),
       Effect.createPVC
         (makePersistentVolumeClaimFromSnapshot pvcB.name (clonedDash ++ nNs1)
           ("snapshot-" ++ "snap-h2") nScTgt pvcB.spec)] :=
  (c10_namespace_redirect_sticky envPVC rgStale snapClassA nScTgt nNs1
      "vol-h1" "snap-h1" "vol-h2" "snap-h2" pvcA pvcB
      (by decide) rfl (by decide) (by decide) (by decide) rfl rfl rfl rfl rfl).2

end CsmRep
